import Mathlib

/-!
# Verification of the product-tour engine

A shallow embedding of the tour subsystem:

* `use-tour.ts` — the tour state machine (`startTour`, `nextStep`,
  `prevStep`, `skipTour`, `goToStep`, `completeTour`), modelled as pure
  functions from a `TourState` to a new `TourState` together with the list
  of side effects (`TourEvent`s: callbacks and the persistence write) the
  call emits.
* `tour-storage.ts` — the persistence gate (`isTourCompleted`,
  `getTourVersion`, `markTourCompleted`, `shouldShowTour`) over an explicit
  model of the `localStorage` backend (`Storage`): absent (`noWindow`, i.e.
  `typeof window === 'undefined'`), throwing, or available with a
  string-keyed store.
* `tour-spotlight.tsx` — `calculateSpotlightPath`, modelled as a list of
  SVG path commands over exact rationals.
* `tour-tooltip.tsx` — `getTooltipPosition`, the placement table plus
  viewport clamping, over exact rationals.
-/

namespace Tour

/-! ## Tour state machine (`use-tour.ts`) -/

/-- The React state owned by `useTour`: `isActive` and `currentStep`.
`currentStep` is a JavaScript number that the hook only ever holds integer
values in; we model it as `Int` so that out-of-range requests to `goToStep`
(including negative ones) are representable. -/
structure TourState where
  isActive : Bool
  currentStep : Int
deriving DecidableEq, Repr

/-- The initial hook state: `useState(false)`, `useState(0)`. -/
def initialTourState : TourState := { isActive := false, currentStep := 0 }

/-- Observable side effects emitted by the state-machine operations:
the optional host callbacks and the `markTourCompleted()` persistence
write. -/
inductive TourEvent
  | onStart
  | onComplete
  | onSkip
  | persistCompleted
deriving DecidableEq, Repr

/-- `startTour`: `setCurrentStep(0); setIsActive(true); onStart?.()`. -/
def startTour (_s : TourState) : TourState × List TourEvent :=
  ({ isActive := true, currentStep := 0 }, [TourEvent.onStart])

/-- `completeTour`: `setIsActive(false); setCurrentStep(0);
markTourCompleted(); onComplete?.()`. -/
def completeTour (_s : TourState) : TourState × List TourEvent :=
  ({ isActive := false, currentStep := 0 },
   [TourEvent.persistCompleted, TourEvent.onComplete])

/-- `skipTour`: `setIsActive(false); setCurrentStep(0);
markTourCompleted(); onSkip?.()`. -/
def skipTour (_s : TourState) : TourState × List TourEvent :=
  ({ isActive := false, currentStep := 0 },
   [TourEvent.persistCompleted, TourEvent.onSkip])

/-- `nextStep`: `if (currentStep >= totalSteps - 1) completeTour(); else
setCurrentStep(prev => prev + 1)`. The comparison is over JavaScript
numbers, so `totalSteps - 1` is `-1` when the catalog is empty. -/
def nextStep (totalSteps : Nat) (s : TourState) : TourState × List TourEvent :=
  if s.currentStep ≥ (totalSteps : Int) - 1 then
    completeTour s
  else
    ({ s with currentStep := s.currentStep + 1 }, [])

/-- `prevStep`: `if (currentStep > 0) setCurrentStep(prev => prev - 1)`. -/
def prevStep (s : TourState) : TourState × List TourEvent :=
  if s.currentStep > 0 then
    ({ s with currentStep := s.currentStep - 1 }, [])
  else
    (s, [])

/-- `goToStep(step)`: `if (step >= 0 && step < totalSteps)
setCurrentStep(step)`. -/
def goToStep (totalSteps : Nat) (step : Int) (s : TourState) :
    TourState × List TourEvent :=
  if step ≥ 0 ∧ step < (totalSteps : Int) then
    ({ s with currentStep := step }, [])
  else
    (s, [])

/-- The public operations of the hook, for quantifying over "every
operation". -/
inductive TourOp
  | start
  | next
  | prev
  | skip
  | goTo (k : Int)
deriving DecidableEq, Repr

/-- Dispatch an operation to its implementation. -/
def applyOp (totalSteps : Nat) : TourOp → TourState → TourState × List TourEvent
  | TourOp.start, s => startTour s
  | TourOp.next, s => nextStep totalSteps s
  | TourOp.prev, s => prevStep s
  | TourOp.skip, s => skipTour s
  | TourOp.goTo k, s => goToStep totalSteps k s

/-- Run a list of operations from a state, collecting all emitted events in
order. -/
def runOps (totalSteps : Nat) : List TourOp → TourState → TourState × List TourEvent
  | [], s => (s, [])
  | op :: ops, s =>
    let r := applyOp totalSteps op s
    let r' := runOps totalSteps ops r.1
    (r'.1, r.2 ++ r'.2)

/-- The spec's state invariant: whenever the tour is active, the step index
is within the catalog's bounds. -/
def tourInv (totalSteps : Nat) (s : TourState) : Prop :=
  s.isActive = true → 0 ≤ s.currentStep ∧ s.currentStep < (totalSteps : Int)

instance (n : Nat) (s : TourState) : Decidable (tourInv n s) := by
  unfold tourInv; infer_instance

/-! ## Persistence gate (`tour-storage.ts`) -/

/-- `const TOUR_COMPLETED_KEY = 'tour:meeting:completed'`. -/
def TOUR_COMPLETED_KEY : String := "tour:meeting:completed"

/-- `const TOUR_VERSION_KEY = 'tour:version'`. -/
def TOUR_VERSION_KEY : String := "tour:version"

/-- `const CURRENT_TOUR_VERSION = '1.0.0'`. -/
def CURRENT_TOUR_VERSION : String := "1.0.0"

/-- The state of the `localStorage` backend as the storage utilities
distinguish it: no `window` object at all (server-side rendering),
`localStorage` access throwing (caught by each function's `try/catch`), or
an available string-keyed store. -/
inductive Storage
  | noWindow
  | throwing
  | available (store : String → Option String)

/-- `localStorage.setItem(key, value)` on an available store. -/
def setItem (store : String → Option String) (key value : String) :
    String → Option String :=
  fun k => if k = key then some value else store k

/-- `isTourCompleted()`: returns `true` when `typeof window ===
'undefined'`; `false` when the read throws; otherwise whether the stored
value at the completed key is the string `'true'`. -/
def isTourCompleted : Storage → Bool
  | Storage.noWindow => true
  | Storage.throwing => false
  | Storage.available store => store TOUR_COMPLETED_KEY == some "true"

/-- `getTourVersion()`: `null` when there is no `window` or the read
throws; otherwise the stored value at the version key. -/
def getTourVersion : Storage → Option String
  | Storage.noWindow => none
  | Storage.throwing => none
  | Storage.available store => store TOUR_VERSION_KEY

/-- `markTourCompleted()`: a no-op without `window`; a caught failure (store
unchanged) when writes throw; otherwise writes `'true'` at the completed
key and the current version at the version key. -/
def markTourCompleted : Storage → Storage
  | Storage.noWindow => Storage.noWindow
  | Storage.throwing => Storage.throwing
  | Storage.available store =>
    Storage.available
      (setItem (setItem store TOUR_COMPLETED_KEY "true")
        TOUR_VERSION_KEY CURRENT_TOUR_VERSION)

/-- `shouldShowTour()` with the module constant `CURRENT_TOUR_VERSION`
abstracted as a parameter (the claims quantify over the current definition
version): `false` without `window`; `true` if not completed; `true` if the
stored version differs from the current one; else `false`. -/
def shouldShowTourWith (currentVersion : String) (st : Storage) : Bool :=
  match st with
  | Storage.noWindow => false
  | _ =>
    if !(isTourCompleted st) then true
    else if getTourVersion st ≠ some currentVersion then true
    else false

/-- `shouldShowTour()` as in the source, at the source's constant. -/
def shouldShowTour (st : Storage) : Bool :=
  shouldShowTourWith CURRENT_TOUR_VERSION st

/-- Apply one emitted event to the storage backend: only
`persistCompleted` touches storage. -/
def applyEvent (st : Storage) : TourEvent → Storage
  | TourEvent.persistCompleted => markTourCompleted st
  | _ => st

/-- Apply a trace of events to the storage backend, in order. -/
def applyEvents (evs : List TourEvent) (st : Storage) : Storage :=
  evs.foldl applyEvent st

/-! ## Spotlight geometry (`tour-spotlight.tsx`) -/

/-- A bounding box as returned by `getBoundingClientRect`, restricted to
the fields `calculateSpotlightPath` reads. Coordinates are exact
rationals standing for the JavaScript numbers. -/
structure Rect where
  left : ℚ
  top : ℚ
  right : ℚ
  bottom : ℚ
deriving DecidableEq, Repr

/-- One SVG path command of the emitted path string: `M`, `L`, `Q`
(quadratic Bézier with one control point) or `Z`. -/
inductive PathCmd
  | move (x y : ℚ)
  | line (x y : ℚ)
  | quad (cx cy x y : ℚ)
  | close
deriving DecidableEq, Repr

/-- `calculateSpotlightPath(element, padding, borderRadius)` with the
element's bounding box and the viewport size passed explicitly: expands the
box by `padding`, clamps the radius, and emits the full-viewport rectangle
followed by the rounded-rectangle cutout, as the source's template string
does. -/
def calculateSpotlightPath (w h : ℚ) (rect : Rect) (padding borderRadius : ℚ) :
    List PathCmd :=
  let left := rect.left - padding
  let top := rect.top - padding
  let right := rect.right + padding
  let bottom := rect.bottom + padding
  let r := min borderRadius (min ((right - left) / 2) ((bottom - top) / 2))
  [PathCmd.move 0 0, PathCmd.line w 0, PathCmd.line w h, PathCmd.line 0 h,
   PathCmd.close,
   PathCmd.move (left + r) top,
   PathCmd.line (right - r) top,
   PathCmd.quad right top right (top + r),
   PathCmd.line right (bottom - r),
   PathCmd.quad right bottom (right - r) bottom,
   PathCmd.line (left + r) bottom,
   PathCmd.quad left bottom left (bottom - r),
   PathCmd.line left (top + r),
   PathCmd.quad left top (left + r) top,
   PathCmd.close]

/-- A rounded rectangle: bounds plus corner radius. -/
structure Cutout where
  left : ℚ
  top : ℚ
  right : ℚ
  bottom : ℚ
  radius : ℚ
deriving DecidableEq, Repr

/-- The cutout as the spec describes it: the target box expanded by
`padding` on all sides, with the radius clamped to
`min(cornerRadius, expanded width / 2, expanded height / 2)`. -/
def specCutout (rect : Rect) (padding cornerRadius : ℚ) : Cutout :=
  { left := rect.left - padding
    top := rect.top - padding
    right := rect.right + padding
    bottom := rect.bottom + padding
    radius := min cornerRadius
      (min ((rect.right + padding - (rect.left - padding)) / 2)
        ((rect.bottom + padding - (rect.top - padding)) / 2)) }

/-- The clockwise full-viewport rectangle sub-path. -/
def viewportSubpath (w h : ℚ) : List PathCmd :=
  [PathCmd.move 0 0, PathCmd.line w 0, PathCmd.line w h, PathCmd.line 0 h,
   PathCmd.close]

/-- The counter-clockwise rounded-rectangle sub-path of a cutout. -/
def roundedRectSubpath (c : Cutout) : List PathCmd :=
  [PathCmd.move (c.left + c.radius) c.top,
   PathCmd.line (c.right - c.radius) c.top,
   PathCmd.quad c.right c.top c.right (c.top + c.radius),
   PathCmd.line c.right (c.bottom - c.radius),
   PathCmd.quad c.right c.bottom (c.right - c.radius) c.bottom,
   PathCmd.line (c.left + c.radius) c.bottom,
   PathCmd.quad c.left c.bottom c.left (c.bottom - c.radius),
   PathCmd.line c.left (c.top + c.radius),
   PathCmd.quad c.left c.top (c.left + c.radius) c.top,
   PathCmd.close]

/-! ## Tooltip geometry (`tour-tooltip.tsx`) -/

/-- The nine placement hints of `TourPosition`. -/
inductive TourPosition
  | top
  | bottom
  | left
  | right
  | center
  | topStart
  | topEnd
  | bottomStart
  | bottomEnd
deriving DecidableEq, Repr

/-- A `DOMRect` with the fields `getTooltipPosition` destructures. In a
browser `width = right - left` and `height = bottom - top`, but the code
reads all six fields, so the model carries them separately. -/
structure DOMRect where
  top : ℚ
  bottom : ℚ
  left : ℚ
  right : ℚ
  width : ℚ
  height : ℚ
deriving DecidableEq, Repr

/-- `interface TooltipSize`. -/
structure TooltipSize where
  width : ℚ
  height : ℚ
deriving DecidableEq, Repr

/-- `const GAP = 16`. -/
def GAP : ℚ := 16

/-- `getTooltipPosition(targetRect, position, tooltipSize)` with the window
size passed explicitly. Returns `(top, left)`. -/
def getTooltipPosition (winW winH : ℚ) (targetRect : Option DOMRect)
    (position : TourPosition) (tooltipSize : TooltipSize) : ℚ × ℚ :=
  match targetRect with
  | none => ((winH - tooltipSize.height) / 2, (winW - tooltipSize.width) / 2)
  | some r =>
    if position = TourPosition.center then
      ((winH - tooltipSize.height) / 2, (winW - tooltipSize.width) / 2)
    else
      let centerX := r.left + r.width / 2
      let centerY := r.top + r.height / 2
      let anchor : ℚ × ℚ :=
        match position with
        | TourPosition.bottom => (r.bottom + GAP, centerX - tooltipSize.width / 2)
        | TourPosition.bottomStart => (r.bottom + GAP, r.left)
        | TourPosition.bottomEnd => (r.bottom + GAP, r.right - tooltipSize.width)
        | TourPosition.top =>
          (r.top - tooltipSize.height - GAP, centerX - tooltipSize.width / 2)
        | TourPosition.topStart => (r.top - tooltipSize.height - GAP, r.left)
        | TourPosition.topEnd =>
          (r.top - tooltipSize.height - GAP, r.right - tooltipSize.width)
        | TourPosition.left =>
          (centerY - tooltipSize.height / 2, r.left - tooltipSize.width - GAP)
        | TourPosition.right => (centerY - tooltipSize.height / 2, r.right + GAP)
        | _ => (r.bottom + GAP, centerX - tooltipSize.width / 2)
      let padding : ℚ := 16
      let tooltipLeft := max padding
        (min anchor.2 (winW - tooltipSize.width - padding))
      let tooltipTop := max padding
        (min anchor.1 (winH - tooltipSize.height - padding))
      (tooltipTop, tooltipLeft)

/-- The candidate anchor before clamping, as the spec describes it: offset
from the relevant target edge by the fixed gap, aligned on the cross axis
to target center or to the start/end edge. Returns `(top, left)`. -/
def candidateAnchor (r : DOMRect) (position : TourPosition)
    (tooltipSize : TooltipSize) : ℚ × ℚ :=
  let centerX := r.left + r.width / 2
  let centerY := r.top + r.height / 2
  match position with
  | TourPosition.bottom => (r.bottom + GAP, centerX - tooltipSize.width / 2)
  | TourPosition.bottomStart => (r.bottom + GAP, r.left)
  | TourPosition.bottomEnd => (r.bottom + GAP, r.right - tooltipSize.width)
  | TourPosition.top =>
    (r.top - tooltipSize.height - GAP, centerX - tooltipSize.width / 2)
  | TourPosition.topStart => (r.top - tooltipSize.height - GAP, r.left)
  | TourPosition.topEnd =>
    (r.top - tooltipSize.height - GAP, r.right - tooltipSize.width)
  | TourPosition.left =>
    (centerY - tooltipSize.height / 2, r.left - tooltipSize.width - GAP)
  | TourPosition.right => (centerY - tooltipSize.height / 2, r.right + GAP)
  | _ => (r.bottom + GAP, centerX - tooltipSize.width / 2)

/-- `Math.max(lo, Math.min(x, hi))`. -/
def clampTo (lo hi x : ℚ) : ℚ := max lo (min x hi)

/-- A stored record for the claim instances: `completed` at the completed
key, `version` at the version key, nothing else. -/
def mkRecord (completed version : String) : String → Option String :=
  fun k =>
    if k = TOUR_COMPLETED_KEY then some completed
    else if k = TOUR_VERSION_KEY then some version
    else none

/-- A store with no entries at all (no prior completion recorded). -/
def emptyRecord : String → Option String := fun _ => none

/-! ## Theorems -/

/-- C1 counterexample: with the empty step catalog, `startTour` from the
initial state yields an active state whose step index 0 does not satisfy
`stepIndex < catalog.length = 0`, so the claimed bound is not preserved by
`startTour` on the empty catalog. -/
theorem startTour_empty_catalog_breaks_bound :
    ((startTour initialTourState).1).isActive = true ∧
      ¬ tourInv 0 (startTour initialTourState).1 := by
  decide

/-- C1 (amended): whenever the tour is active, `0 ≤ stepIndex <
catalog.length`, and this bound is preserved by every operation
(`startTour`, `nextStep`, `prevStep`, `skipTour`, `goToStep`) for every
catalog of length at least 1. -/
theorem tour_bound_invariant_preserved (totalSteps : Nat)
    (hn : 1 ≤ totalSteps) (s : TourState) (hs : tourInv totalSteps s)
    (op : TourOp) : tourInv totalSteps (applyOp totalSteps op s).1 := by
  unfold tourInv at hs ⊢
  cases op with
  | start =>
    simp only [applyOp, startTour]
    intro _
    constructor <;> omega
  | next =>
    simp only [applyOp, nextStep, completeTour]
    split_ifs with hcond
    · intro h
      simp at h
    · intro h
      rcases hs h with ⟨h0, h1⟩
      dsimp only
      constructor <;> omega
  | prev =>
    simp only [applyOp, prevStep]
    split_ifs with hcond
    · intro h
      rcases hs h with ⟨h0, h1⟩
      dsimp only
      constructor <;> omega
    · exact hs
  | skip =>
    simp only [applyOp, skipTour]
    intro h
    simp at h
  | goTo k =>
    simp only [applyOp, goToStep]
    split_ifs with hcond
    · intro _
      exact ⟨hcond.1, hcond.2⟩
    · exact hs

/-- Witness for C1's amended theorem at a concrete input. -/
theorem tour_bound_invariant_preserved_witness :
    1 ≤ 1 ∧ tourInv 1 ⟨true, 0⟩ ∧
      tourInv 1 (applyOp 1 TourOp.next ⟨true, 0⟩).1 :=
  ⟨le_refl 1, by decide,
    tour_bound_invariant_preserved 1 (le_refl 1) ⟨true, 0⟩ (by decide)
      TourOp.next⟩

/-- Advancing `k` times from `Active(i)` with `i + k = totalSteps` and
`k ≥ 1` reaches `Inactive` at step 0, emitting exactly the persistence
write and one `onComplete`. -/
theorem runNext_completes (totalSteps : Nat) (k : Nat) :
    ∀ i : Int, 0 ≤ i → i + k = (totalSteps : Int) → 1 ≤ k →
      runOps totalSteps (List.replicate k TourOp.next) ⟨true, i⟩ =
        (⟨false, 0⟩, [TourEvent.persistCompleted, TourEvent.onComplete]) := by
  induction k with
  | zero =>
    intro i _ _ hk
    omega
  | succ k ih =>
    intro i h0 hsum _
    rw [List.replicate_succ]
    simp only [runOps, applyOp, nextStep, completeTour]
    rcases Nat.eq_zero_or_pos k with hk0 | hkpos
    · subst hk0
      rw [if_pos (by push_cast at hsum ⊢; omega)]
      simp [runOps]
    · rw [if_neg (by push_cast at hsum ⊢; omega)]
      have h' := ih (i + 1) (by omega) (by push_cast at hsum ⊢; omega)
        (by omega)
      simp only []
      rw [h']
      simp

/-- C2: for every catalog of length `n ≥ 1`, starting a fresh tour and
then advancing exactly `n` times ends Inactive with step index 0, and
`onComplete` is emitted exactly once in the whole trace. -/
theorem start_then_advance_n_completes_once (n : Nat) (hn : 1 ≤ n) :
    (runOps n (TourOp.start :: List.replicate n TourOp.next)
        initialTourState).1 = ⟨false, 0⟩ ∧
      ((runOps n (TourOp.start :: List.replicate n TourOp.next)
        initialTourState).2).count TourEvent.onComplete = 1 := by
  have h := runNext_completes n n 0 le_rfl (by omega) hn
  have h2 : runOps n (TourOp.start :: List.replicate n TourOp.next)
      initialTourState =
      (⟨false, 0⟩, [TourEvent.onStart, TourEvent.persistCompleted,
        TourEvent.onComplete]) := by
    simp only [runOps, applyOp, startTour, initialTourState]
    rw [h]
    simp
  rw [h2]
  exact ⟨rfl, by decide⟩

/-- Witness for C2 at a three-step catalog. -/
theorem start_then_advance_n_completes_once_witness :
    1 ≤ 3 ∧
      ((runOps 3 (TourOp.start :: List.replicate 3 TourOp.next)
          initialTourState).1 = ⟨false, 0⟩ ∧
        ((runOps 3 (TourOp.start :: List.replicate 3 TourOp.next)
          initialTourState).2).count TourEvent.onComplete = 1) :=
  ⟨by decide, start_then_advance_n_completes_once 3 (by decide)⟩

/-- C3: from any active state and any available storage backend, `skipTour`
and advance-to-completion (`nextStep` on the last step) both leave the
persisted record with `completed = true` and `version` equal to the
current definition version, and each emits exactly one of `onSkip` or
`onComplete` respectively — `onSkip` xor `onComplete`, never both, never
neither. -/
theorem skip_and_complete_persist_xor_callbacks (n : Nat) (s : TourState)
    (store : String → Option String) (_hactive : s.isActive = true)
    (hlast : s.currentStep ≥ (n : Int) - 1) :
    (isTourCompleted
        (applyEvents (skipTour s).2 (Storage.available store)) = true ∧
      getTourVersion
        (applyEvents (skipTour s).2 (Storage.available store)) =
          some CURRENT_TOUR_VERSION ∧
      ((skipTour s).2).count TourEvent.onSkip = 1 ∧
      ((skipTour s).2).count TourEvent.onComplete = 0) ∧
    (isTourCompleted
        (applyEvents (nextStep n s).2 (Storage.available store)) = true ∧
      getTourVersion
        (applyEvents (nextStep n s).2 (Storage.available store)) =
          some CURRENT_TOUR_VERSION ∧
      ((nextStep n s).2).count TourEvent.onComplete = 1 ∧
      ((nextStep n s).2).count TourEvent.onSkip = 0) := by
  have hnext : nextStep n s = completeTour s := by
    unfold nextStep
    rw [if_pos hlast]
  rw [hnext]
  refine ⟨⟨?_, ?_, rfl, rfl⟩, ⟨?_, ?_, rfl, rfl⟩⟩ <;>
    simp [skipTour, completeTour, applyEvents, applyEvent, markTourCompleted,
      isTourCompleted, getTourVersion, setItem, TOUR_COMPLETED_KEY,
      TOUR_VERSION_KEY]

/-- Witness for C3 on a one-step tour at its last step with an empty
store. -/
theorem skip_and_complete_persist_xor_callbacks_witness :
    (TourState.mk true 0).isActive = true ∧
      (TourState.mk true 0).currentStep ≥ ((1 : Nat) : Int) - 1 ∧
      ((isTourCompleted
          (applyEvents (skipTour ⟨true, 0⟩).2
            (Storage.available emptyRecord)) = true ∧
        getTourVersion
          (applyEvents (skipTour ⟨true, 0⟩).2
            (Storage.available emptyRecord)) = some CURRENT_TOUR_VERSION ∧
        ((skipTour (TourState.mk true 0)).2).count TourEvent.onSkip = 1 ∧
        ((skipTour (TourState.mk true 0)).2).count TourEvent.onComplete = 0) ∧
      (isTourCompleted
          (applyEvents (nextStep 1 ⟨true, 0⟩).2
            (Storage.available emptyRecord)) = true ∧
        getTourVersion
          (applyEvents (nextStep 1 ⟨true, 0⟩).2
            (Storage.available emptyRecord)) = some CURRENT_TOUR_VERSION ∧
        ((nextStep 1 (TourState.mk true 0)).2).count TourEvent.onComplete = 1 ∧
        ((nextStep 1 (TourState.mk true 0)).2).count TourEvent.onSkip = 0)) :=
  ⟨rfl, by decide,
    skip_and_complete_persist_xor_callbacks 1 ⟨true, 0⟩ emptyRecord rfl
      (by decide)⟩

/-- C4: over available storage, `shouldShowTour` (with the current
definition version as parameter) returns `true` iff the tour is not
recorded completed or the stored version differs; in particular it is
`true` with no record, `false` for `{completed: true, version: V}` queried
against `V`, and `true` for that record queried against `V' ≠ V`. -/
theorem shouldShowTour_iff_not_completed_or_version_differs
    (cur V V' : String) (hne : V' ≠ V) :
    (∀ store : String → Option String,
        shouldShowTourWith cur (Storage.available store) = true ↔
          (isTourCompleted (Storage.available store) = false ∨
            getTourVersion (Storage.available store) ≠ some cur)) ∧
      shouldShowTourWith cur (Storage.available emptyRecord) = true ∧
      shouldShowTourWith V (Storage.available (mkRecord "true" V)) = false ∧
      shouldShowTourWith V' (Storage.available (mkRecord "true" V)) = true := by
  refine ⟨?_, ?_, ?_, ?_⟩
  · intro store
    simp only [shouldShowTourWith]
    split_ifs with h1 h2
    · simp only [Bool.not_eq_true'] at h1
      simp [h1]
    · simp [h2]
    · simp only [Bool.not_eq_true'] at h1
      simp only [Bool.not_eq_false] at h1
      push_neg at h2
      simp [h1, h2]
  · simp [shouldShowTourWith, isTourCompleted, emptyRecord]
  · simp [shouldShowTourWith, isTourCompleted, getTourVersion, mkRecord,
      TOUR_COMPLETED_KEY, TOUR_VERSION_KEY]
  · simp [shouldShowTourWith, isTourCompleted, getTourVersion, mkRecord,
      TOUR_COMPLETED_KEY, TOUR_VERSION_KEY, Ne.symm hne]

/-- Witness for C4 with versions `1.0.0`, `1.0.0` and `2.0.0`. -/
theorem shouldShowTour_iff_witness :
    ("2.0.0" : String) ≠ "1.0.0" ∧
      ((∀ store : String → Option String,
          shouldShowTourWith "1.0.0" (Storage.available store) = true ↔
            (isTourCompleted (Storage.available store) = false ∨
              getTourVersion (Storage.available store) ≠ some "1.0.0")) ∧
        shouldShowTourWith "1.0.0" (Storage.available emptyRecord) = true ∧
        shouldShowTourWith "1.0.0"
          (Storage.available (mkRecord "true" "1.0.0")) = false ∧
        shouldShowTourWith "2.0.0"
          (Storage.available (mkRecord "true" "1.0.0")) = true) :=
  ⟨by decide,
    shouldShowTour_iff_not_completed_or_version_differs "1.0.0" "1.0.0"
      "2.0.0" (by decide)⟩

/-- C5 counterexample: when the storage backend is absent entirely
(`typeof window === 'undefined'`), `isTourCompleted` returns `true`, not
`false` — it does report completion as a result of backend
unavailability. -/
theorem isTourCompleted_noWindow_reports_true :
    isTourCompleted Storage.noWindow = true := rfl

/-- C5 (amended): `isTourCompleted` returns `false` whenever a storage
read throws, and for an available backend it reports `true` only when the
stored flag is literally `'true'`; but when there is no `window` at all
(server-side rendering) it returns `true`, treating the tour as
completed. -/
theorem isTourCompleted_fails_safe (store : String → Option String)
    (h : store TOUR_COMPLETED_KEY ≠ some "true") :
    isTourCompleted Storage.throwing = false ∧
      isTourCompleted Storage.noWindow = true ∧
      isTourCompleted (Storage.available store) = false := by
  refine ⟨rfl, rfl, ?_⟩
  simp [isTourCompleted, h]

/-- Witness for C5's amended theorem at the empty store. -/
theorem isTourCompleted_fails_safe_witness :
    emptyRecord TOUR_COMPLETED_KEY ≠ some "true" ∧
      (isTourCompleted Storage.throwing = false ∧
        isTourCompleted Storage.noWindow = true ∧
        isTourCompleted (Storage.available emptyRecord) = false) :=
  ⟨by decide, isTourCompleted_fails_safe emptyRecord (by decide)⟩

/-- C8: `prevStep` from `Active(0)` is a no-op with no callback emitted;
`prevStep` from `Active(i)` with `i > 0` moves to `Active(i - 1)` with no
callback. -/
theorem prevStep_zero_noop_positive_decrements (i : Int) (hi : 0 < i) :
    prevStep ⟨true, 0⟩ = (⟨true, 0⟩, []) ∧
      prevStep ⟨true, i⟩ = (⟨true, i - 1⟩, []) := by
  constructor
  · decide
  · simp [prevStep, hi]

/-- Witness for C8 at step index 2. -/
theorem prevStep_zero_noop_positive_decrements_witness :
    (0 : Int) < 2 ∧
      (prevStep ⟨true, 0⟩ = (⟨true, 0⟩, []) ∧
        prevStep ⟨true, 2⟩ = (⟨true, 2 - 1⟩, [])) :=
  ⟨by decide, prevStep_zero_noop_positive_decrements 2 (by decide)⟩

/-- C9: `goToStep k` for `k` outside `[0, totalSteps)` leaves the whole
state unchanged and emits nothing, for every current state. -/
theorem goToStep_out_of_range_noop (totalSteps : Nat) (k : Int)
    (s : TourState) (hk : k < 0 ∨ (totalSteps : Int) ≤ k) :
    goToStep totalSteps k s = (s, []) := by
  unfold goToStep
  rw [if_neg]
  rintro ⟨h0, h1⟩
  rcases hk with h | h <;> omega

/-- Witness for C9: jumping to 5 in a 3-step tour changes nothing. -/
theorem goToStep_out_of_range_noop_witness :
    ((5 : Int) < 0 ∨ ((3 : Nat) : Int) ≤ 5) ∧
      goToStep 3 5 ⟨true, 1⟩ = (⟨true, 1⟩, []) :=
  ⟨Or.inr (by decide),
    goToStep_out_of_range_noop 3 5 ⟨true, 1⟩ (Or.inr (by decide))⟩

/-- C10: `goToStep` never changes `isActive`, for every state and index;
and an in-range `goToStep k` from an inactive state updates the step index
to `k` without activating the tour. -/
theorem goToStep_never_changes_isActive (totalSteps : Nat) (k i : Int)
    (hk0 : 0 ≤ k) (hkn : k < (totalSteps : Int)) :
    (∀ (m : Nat) (j : Int) (t : TourState),
        ((goToStep m j t).1).isActive = t.isActive) ∧
      goToStep totalSteps k ⟨false, i⟩ = (⟨false, k⟩, []) := by
  constructor
  · intro m j t
    unfold goToStep
    split <;> rfl
  · unfold goToStep
    rw [if_pos ⟨hk0, hkn⟩]

/-- Witness for C10: from inactive at step 0, `goToStep 1` in a 3-step
tour sets the step without activating. -/
theorem goToStep_never_changes_isActive_witness :
    (0 : Int) ≤ 1 ∧ (1 : Int) < ((3 : Nat) : Int) ∧
      ((∀ (m : Nat) (j : Int) (t : TourState),
          ((goToStep m j t).1).isActive = t.isActive) ∧
        goToStep 3 1 ⟨false, 0⟩ = (⟨false, 1⟩, [])) :=
  ⟨by decide, by decide,
    goToStep_never_changes_isActive 3 1 0 (by decide) (by decide)⟩

/-- C6: for every target box, padding and corner radius, the emitted
spotlight path is the full-viewport rectangle followed by the rounded
rectangle of the box expanded by the padding on all sides, with radius
clamped to `min(cornerRadius, width/2, height/2)` of the expanded box; in
particular the box `{100,100,200,150}` with padding 8 and radius 8 yields
cutout bounds `{92,92,208,158}` and radius `min(8, 58, 33) = 8`. -/
theorem spotlight_path_is_expanded_rounded_rect :
    (∀ (w h : ℚ) (rect : Rect) (padding borderRadius : ℚ),
        calculateSpotlightPath w h rect padding borderRadius =
          viewportSubpath w h ++
            roundedRectSubpath (specCutout rect padding borderRadius)) ∧
      specCutout ⟨100, 100, 200, 150⟩ 8 8 = ⟨92, 92, 208, 158, 8⟩ ∧
      min (8 : ℚ) (min 58 33) = 8 := by
  refine ⟨fun w h rect padding borderRadius => rfl, ?_, by decide⟩
  simp only [specCutout, Cutout.mk.injEq]
  norm_num

/-- Bounds of the clamp used by the tooltip positioning. -/
theorem clampTo_mem (lo hi x : ℚ) (h : lo ≤ hi) :
    lo ≤ clampTo lo hi x ∧ clampTo lo hi x ≤ hi :=
  ⟨le_max_left _ _, max_le h (min_le_right _ _)⟩

/-- C7: for every directional placement, the tooltip anchor is the clamp
of the candidate obtained by offsetting from the relevant target edge by
the 16-unit gap, and (when the tooltip fits) the resulting rectangle lies
within the viewport minus a 16-unit inset on all sides. -/
theorem tooltip_anchor_offset_then_clamped (winW winH : ℚ) (r : DOMRect)
    (pos : TourPosition) (sz : TooltipSize)
    (hpos : pos ≠ TourPosition.center)
    (hw : sz.width + 32 ≤ winW) (hh : sz.height + 32 ≤ winH) :
    getTooltipPosition winW winH (some r) pos sz =
        (clampTo 16 (winH - sz.height - 16) (candidateAnchor r pos sz).1,
          clampTo 16 (winW - sz.width - 16) (candidateAnchor r pos sz).2) ∧
      (16 ≤ (getTooltipPosition winW winH (some r) pos sz).2 ∧
        (getTooltipPosition winW winH (some r) pos sz).2 + sz.width ≤
          winW - 16 ∧
        16 ≤ (getTooltipPosition winW winH (some r) pos sz).1 ∧
        (getTooltipPosition winW winH (some r) pos sz).1 + sz.height ≤
          winH - 16) := by
  have heq : getTooltipPosition winW winH (some r) pos sz =
      (clampTo 16 (winH - sz.height - 16) (candidateAnchor r pos sz).1,
        clampTo 16 (winW - sz.width - 16) (candidateAnchor r pos sz).2) := by
    cases pos <;>
      first
        | exact absurd rfl hpos
        | rfl
  have hloW : (16 : ℚ) ≤ winW - sz.width - 16 := by linarith
  have hloH : (16 : ℚ) ≤ winH - sz.height - 16 := by linarith
  have hmemW := clampTo_mem 16 (winW - sz.width - 16)
    (candidateAnchor r pos sz).2 hloW
  have hmemH := clampTo_mem 16 (winH - sz.height - 16)
    (candidateAnchor r pos sz).1 hloH
  rw [heq]
  refine ⟨rfl, hmemW.1, by linarith [hmemW.2], hmemH.1, by linarith [hmemH.2]⟩

/-- Witness for C7 at the spec's example: a 320×200 tooltip placed to the
right of a target with `right = 780` in an 800×600 viewport; the unclamped
left 796 is clamped to 464. -/
theorem tooltip_anchor_offset_then_clamped_witness :
    TourPosition.right ≠ TourPosition.center ∧
      ((320 : ℚ) + 32 ≤ 800) ∧ ((200 : ℚ) + 32 ≤ 600) ∧
      (candidateAnchor ⟨100, 200, 700, 780, 80, 100⟩ TourPosition.right
          ⟨320, 200⟩).2 = 780 + 16 ∧
      (getTooltipPosition 800 600 (some ⟨100, 200, 700, 780, 80, 100⟩)
          TourPosition.right ⟨320, 200⟩).2 = 800 - 320 - 16 ∧
      (16 : ℚ) ≤ (getTooltipPosition 800 600
          (some ⟨100, 200, 700, 780, 80, 100⟩) TourPosition.right
          ⟨320, 200⟩).2 :=
  ⟨by decide, by norm_num, by norm_num,
    by norm_num [candidateAnchor, GAP],
    by
      simp only [getTooltipPosition]
      rw [if_neg (by decide)]
      norm_num [GAP],
    (tooltip_anchor_offset_then_clamped 800 600 ⟨100, 200, 700, 780, 80, 100⟩
      TourPosition.right ⟨320, 200⟩ (by decide) (by norm_num)
      (by norm_num)).2.1⟩

end Tour
